import Mathlib

/-!
Shallow embedding of the CaptureMobile backend (`src/backend`) used to check
the natural-language specification against the code.

Embedded components:
* `DailyLimitTracker` (main.py lines 55-100): global and per-user daily
  request ceilings with day rollover.  Calendar days are modelled as `Nat`
  day indices; `date.today()` becomes an explicit `today` parameter.  The
  module-level constants `GLOBAL_DAILY_LIMIT` / `PER_USER_DAILY_LIMIT` are
  passed as the `g` / `p` parameters (the spec treats them as the tracker's
  configuration).
* the async job pipeline (main.py lines 340-523): job creation, the
  background task `process_screenshot_and_notify`, and `get_job_status`.
* `OpenAIService.analyze_screenshot` (openai_service.py): the try-block up
  to `json.loads` is modelled by an `Except String` input — `.error e`
  stands for any exception raised by the API call or JSON parsing, with
  `e = str(exception)`; `_parse_response` is embedded directly.
* `APNsService` (apns_service.py): `send_notification` plus the argument
  builders of the three convenience notifications.  The provider call
  `self.client.send_notification(request)` is modelled by a
  `ProviderOutcome` input which can be a response or a raised exception.

Python dicts are modelled as association lists (`assocGet` / `assocSet`),
`defaultdict(int)` access by `dcAccess` (which inserts a zero entry on a
missing key, as `defaultdict.__getitem__` does).
-/

namespace Capture

/-- Association-list lookup, modelling Python `dict.get(k)` /
`k in dict` access (first matching key). -/
def assocGet {α : Type} : List (String × α) → String → Option α
  | [], _ => none
  | (k', v) :: rest, k => if k' = k then some v else assocGet rest k

/-- Association-list update, modelling Python `dict[k] = v`: replaces the
entry in place if the key exists, otherwise appends a new entry (Python
dicts keep insertion order). -/
def assocSet {α : Type} : List (String × α) → String → α → List (String × α)
  | [], k, v => [(k, v)]
  | (k', v') :: rest, k, v =>
    if k' = k then (k, v) :: rest else (k', v') :: assocSet rest k v

theorem assocGet_assocSet_self {α : Type} (m : List (String × α)) (k : String) (v : α) :
    assocGet (assocSet m k v) k = some v := by
  induction m with
  | nil => simp [assocSet, assocGet]
  | cons hd rest ih =>
    obtain ⟨a, b⟩ := hd
    by_cases h : a = k
    · simp [assocSet, assocGet, h]
    · simp [assocSet, assocGet, h, ih]

theorem assocGet_assocSet_ne {α : Type} (m : List (String × α)) (k k' : String) (v : α)
    (h : k ≠ k') : assocGet (assocSet m k v) k' = assocGet m k' := by
  induction m with
  | nil => simp [assocSet, assocGet, h]
  | cons hd rest ih =>
    obtain ⟨a, b⟩ := hd
    by_cases ha : a = k
    · subst ha
      simp [assocSet, assocGet, h]
    · simp [assocSet, assocGet, ha, ih]

/-- State of `DailyLimitTracker` (main.py lines 55-59): the global counter,
the per-user counter map (`defaultdict(int)`), and the stored calendar day. -/
structure DailyLimitTracker where
  global_count : Nat
  user_counts : List (String × Nat)
  current_date : Nat
deriving DecidableEq

/-- Value of a user's counter: missing keys read as 0, matching
`defaultdict(int)` semantics. -/
def lookupCount (m : List (String × Nat)) (u : String) : Nat :=
  (assocGet m u).getD 0

/-- `defaultdict(int).__getitem__`: returns the stored value, inserting a
fresh zero entry when the key is absent.  Returns the read value together
with the (possibly extended) map. -/
def dcAccess (m : List (String × Nat)) (u : String) : Nat × List (String × Nat) :=
  match assocGet m u with
  | some c => (c, m)
  | none => (0, assocSet m u 0)

/-- `DailyLimitTracker._reset_if_new_day` (main.py lines 61-68): if today
differs from the stored date, zero the global counter, clear the user map
and record the new date. -/
def reset_if_new_day (today : Nat) (s : DailyLimitTracker) : DailyLimitTracker :=
  if today ≠ s.current_date then ⟨0, [], today⟩ else s

/-- The rejection message of the global daily ceiling (main.py line 79). -/
def global_limit_msg (g : Nat) : String :=
  "Daily limit reached (" ++ toString g ++ " requests). Try again tomorrow."

/-- The rejection message of the per-user daily ceiling (main.py line 83). -/
def user_limit_msg (p : Nat) : String :=
  "You\x27ve reached your daily limit (" ++ toString p ++ " captures). Try again tomorrow."

/-- `DailyLimitTracker.check_and_increment` (main.py lines 70-89).
`g` and `p` are the configured `GLOBAL_DAILY_LIMIT` and
`PER_USER_DAILY_LIMIT`; `today` is the current calendar day.  Note that the
per-user ceiling check `self.user_counts[user_id] >= PER_USER_DAILY_LIMIT`
is a `defaultdict` access, hence `dcAccess`. -/
def check_and_increment (g p today : Nat) (s : DailyLimitTracker) (u : String) :
    (Bool × String) × DailyLimitTracker :=
  let s' := reset_if_new_day today s
  if s'.global_count ≥ g then
    ((false, global_limit_msg g), s')
  else if (dcAccess s'.user_counts u).1 ≥ p then
    ((false, user_limit_msg p), { s' with user_counts := (dcAccess s'.user_counts u).2 })
  else
    ((true, ""), { s' with
        global_count := s'.global_count + 1,
        user_counts := assocSet (dcAccess s'.user_counts u).2 u
          ((dcAccess s'.user_counts u).1 + 1) })

/-- `GLOBAL_DAILY_LIMIT` (main.py line 42). -/
def GLOBAL_DAILY_LIMIT : Nat := 500

/-- `PER_USER_DAILY_LIMIT` (main.py line 43). -/
def PER_USER_DAILY_LIMIT : Nat := 25

/-- The dictionary returned by `DailyLimitTracker.get_stats` (main.py
lines 91-98). -/
structure UsageStats where
  global_used : Nat
  global_limit : Nat
  active_users : Nat
deriving DecidableEq

/-- `DailyLimitTracker.get_stats` (main.py lines 91-98): performs the same
day-rollover normalisation, then reports usage.  Returns the stats together
with the (possibly reset) tracker state, since the reset mutates `self`. -/
def get_stats (today : Nat) (s : DailyLimitTracker) : UsageStats × DailyLimitTracker :=
  let s' := reset_if_new_day today s
  (⟨s'.global_count, GLOBAL_DAILY_LIMIT, s'.user_counts.length⟩, s')

/-- A sequence of `check_and_increment` calls, all observed on day `today`.
Returns the final tracker state and the number of accepted calls. -/
def run_calls (g p today : Nat) (s : DailyLimitTracker) : List String → DailyLimitTracker × Nat
  | [] => (s, 0)
  | u :: rest =>
    ((run_calls g p today (check_and_increment g p today s u).2 rest).1,
     (if (check_and_increment g p today s u).1.1 then 1 else 0) +
       (run_calls g p today (check_and_increment g p today s u).2 rest).2)

theorem lookupCount_assocSet_self (m : List (String × Nat)) (u : String) (w : Nat) :
    lookupCount (assocSet m u w) u = w := by
  simp [lookupCount, assocGet_assocSet_self]

theorem lookupCount_assocSet_ne (m : List (String × Nat)) (u v : String) (w : Nat)
    (h : u ≠ v) : lookupCount (assocSet m u w) v = lookupCount m v := by
  simp [lookupCount, assocGet_assocSet_ne m u v w h]

theorem dcAccess_fst (m : List (String × Nat)) (u : String) :
    (dcAccess m u).1 = lookupCount m u := by
  unfold dcAccess lookupCount
  cases h : assocGet m u <;> simp [h]

theorem lookupCount_dcAccess (m : List (String × Nat)) (u v : String) :
    lookupCount (dcAccess m u).2 v = lookupCount m v := by
  unfold dcAccess
  cases h : assocGet m u with
  | some c => simp
  | none =>
    by_cases hv : u = v
    · subst hv
      simp [lookupCount, assocGet_assocSet_self, h]
    · simp [lookupCount, assocGet_assocSet_ne m u v 0 hv]

/-- `check_and_increment` unfolded with the day-rollover state written out. -/
theorem check_and_increment_eq (g p today : Nat) (s : DailyLimitTracker) (u : String) :
    check_and_increment g p today s u =
      (if (reset_if_new_day today s).global_count ≥ g then
        ((false, global_limit_msg g), reset_if_new_day today s)
      else if (dcAccess (reset_if_new_day today s).user_counts u).1 ≥ p then
        ((false, user_limit_msg p),
          ⟨(reset_if_new_day today s).global_count,
           (dcAccess (reset_if_new_day today s).user_counts u).2,
           (reset_if_new_day today s).current_date⟩)
      else
        ((true, ""),
          ⟨(reset_if_new_day today s).global_count + 1,
           assocSet (dcAccess (reset_if_new_day today s).user_counts u).2 u
             ((dcAccess (reset_if_new_day today s).user_counts u).1 + 1),
           (reset_if_new_day today s).current_date⟩)) := rfl

theorem reset_if_new_day_same (today : Nat) (s : DailyLimitTracker)
    (h : s.current_date = today) : reset_if_new_day today s = s := by
  simp [reset_if_new_day, h]

/-- Every call stamps the current day into the tracker state. -/
theorem check_and_increment_date (g p today : Nat) (s : DailyLimitTracker) (u : String) :
    (check_and_increment g p today s u).2.current_date = today := by
  rw [check_and_increment_eq]
  have hd : (reset_if_new_day today s).current_date = today := by
    unfold reset_if_new_day
    split
    · rfl
    · omega
  split
  · exact hd
  · split <;> exact hd

/-- A call changes the global counter by exactly one when accepted and zero
when rejected (same-day state). -/
theorem check_global_change (g p d : Nat) (s : DailyLimitTracker) (u : String)
    (h : s.current_date = d) :
    (check_and_increment g p d s u).2.global_count
      = s.global_count
        + (if (check_and_increment g p d s u).1.1 then 1 else 0) := by
  rw [check_and_increment_eq, reset_if_new_day_same d s h]
  split
  · simp
  · split <;> simp

/-- A call changes the user's own counter by exactly one when accepted, and
leaves every per-user counter value unchanged when rejected (same-day
state). -/
theorem check_user_change (g p d : Nat) (s : DailyLimitTracker) (u v : String)
    (h : s.current_date = d) :
    lookupCount (check_and_increment g p d s u).2.user_counts v
      = lookupCount s.user_counts v
        + (if (check_and_increment g p d s u).1.1 = true ∧ v = u then 1 else 0) := by
  rw [check_and_increment_eq, reset_if_new_day_same d s h]
  split
  · simp
  · split
    · simp [lookupCount_dcAccess]
    · by_cases hv : v = u
      · subst hv
        simp [lookupCount_assocSet_self, dcAccess_fst]
      · have hv' : u ≠ v := fun hh => hv hh.symm
        simp [lookupCount_assocSet_ne _ _ _ _ hv', lookupCount_dcAccess, hv]

/-- The tracker invariant of claim C1: neither counter is ever past its
configured maximum. -/
def TrackerInv (g p : Nat) (s : DailyLimitTracker) : Prop :=
  s.global_count ≤ g ∧ ∀ v, lookupCount s.user_counts v ≤ p

theorem trackerInv_reset (g p today : Nat) (s : DailyLimitTracker)
    (h : TrackerInv g p s) : TrackerInv g p (reset_if_new_day today s) := by
  unfold reset_if_new_day
  split
  · exact ⟨Nat.zero_le g, fun v => by simp [lookupCount, assocGet]⟩
  · exact h

theorem check_preserves_inv (g p today : Nat) (s : DailyLimitTracker) (u : String)
    (h : TrackerInv g p s) : TrackerInv g p (check_and_increment g p today s u).2 := by
  obtain ⟨hg, hu⟩ := trackerInv_reset g p today s h
  rw [check_and_increment_eq]
  split
  · exact ⟨hg, hu⟩
  · split
    · refine ⟨hg, fun v => ?_⟩
      simpa [lookupCount_dcAccess] using hu v
    · rename_i hglobal huser
      rw [dcAccess_fst] at huser
      refine ⟨?_, fun v => ?_⟩
      · show (reset_if_new_day today s).global_count + 1 ≤ g
        omega
      · show lookupCount
            (assocSet (dcAccess (reset_if_new_day today s).user_counts u).2 u
              ((dcAccess (reset_if_new_day today s).user_counts u).1 + 1)) v ≤ p
        by_cases hv : v = u
        · subst hv
          rw [lookupCount_assocSet_self, dcAccess_fst]
          omega
        · have hv' : u ≠ v := fun hh => hv hh.symm
          rw [lookupCount_assocSet_ne _ _ _ _ hv', lookupCount_dcAccess]
          exact hu v

theorem run_calls_preserves_inv (g p today : Nat) (uids : List String) :
    ∀ s : DailyLimitTracker, TrackerInv g p s →
      TrackerInv g p (run_calls g p today s uids).1 := by
  induction uids with
  | nil => intro s h; exact h
  | cons u rest ih =>
    intro s h
    exact ih _ (check_preserves_inv g p today s u h)

/-- Over a same-day call sequence, the global counter grows by exactly the
number of accepted calls. -/
theorem run_calls_global (g p d : Nat) (uids : List String) :
    ∀ s : DailyLimitTracker, s.current_date = d →
      (run_calls g p d s uids).1.global_count
        = s.global_count + (run_calls g p d s uids).2 := by
  induction uids with
  | nil => intro s _; simp [run_calls]
  | cons u rest ih =>
    intro s h
    have hdate : (check_and_increment g p d s u).2.current_date = d :=
      check_and_increment_date g p d s u
    have hglob := check_global_change g p d s u h
    simp only [run_calls]
    rw [ih _ hdate, hglob]
    omega

/-- `get_stats` unfolded with the day-rollover state written out. -/
theorem get_stats_eq (today : Nat) (s : DailyLimitTracker) :
    get_stats today s =
      (⟨(reset_if_new_day today s).global_count, GLOBAL_DAILY_LIMIT,
        (reset_if_new_day today s).user_counts.length⟩,
       reset_if_new_day today s) := rfl

/-- C1: for every sequence of `check_and_increment` calls made on the same
calendar day starting from a fresh day state, the tracker's `global_count`
after N accepted calls equals exactly N; no call ever pushes the global
counter past `GLOBAL_DAILY_LIMIT` or any user's counter past
`PER_USER_DAILY_LIMIT`; and every call changes the global counter and the
caller's counter by one exactly when it is accepted — in particular a
rejected call leaves the global counter and every per-user counter value
unchanged. -/
theorem c1_daily_limit_counting (uids : List String) (d : Nat) :
    (run_calls GLOBAL_DAILY_LIMIT PER_USER_DAILY_LIMIT d ⟨0, [], d⟩ uids).1.global_count
        = (run_calls GLOBAL_DAILY_LIMIT PER_USER_DAILY_LIMIT d ⟨0, [], d⟩ uids).2
    ∧ (run_calls GLOBAL_DAILY_LIMIT PER_USER_DAILY_LIMIT d ⟨0, [], d⟩ uids).1.global_count
        ≤ GLOBAL_DAILY_LIMIT
    ∧ (∀ v : String,
        lookupCount
            (run_calls GLOBAL_DAILY_LIMIT PER_USER_DAILY_LIMIT d ⟨0, [], d⟩ uids).1.user_counts
            v
          ≤ PER_USER_DAILY_LIMIT)
    ∧ (∀ (gc : Nat) (m : List (String × Nat)) (u : String),
        (check_and_increment GLOBAL_DAILY_LIMIT PER_USER_DAILY_LIMIT d ⟨gc, m, d⟩ u).2.global_count
          = gc + (if (check_and_increment GLOBAL_DAILY_LIMIT PER_USER_DAILY_LIMIT d
                ⟨gc, m, d⟩ u).1.1 then 1 else 0))
    ∧ (∀ (gc : Nat) (m : List (String × Nat)) (u v : String),
        lookupCount
            (check_and_increment GLOBAL_DAILY_LIMIT PER_USER_DAILY_LIMIT d
              ⟨gc, m, d⟩ u).2.user_counts v
          = lookupCount m v
            + (if (check_and_increment GLOBAL_DAILY_LIMIT PER_USER_DAILY_LIMIT d
                  ⟨gc, m, d⟩ u).1.1 = true ∧ v = u then 1 else 0)) := by
  have hfresh : TrackerInv GLOBAL_DAILY_LIMIT PER_USER_DAILY_LIMIT
      (⟨0, [], d⟩ : DailyLimitTracker) :=
    ⟨Nat.zero_le _, fun v => by simp [lookupCount, assocGet]⟩
  have hinv := run_calls_preserves_inv GLOBAL_DAILY_LIMIT PER_USER_DAILY_LIMIT d uids
    ⟨0, [], d⟩ hfresh
  refine ⟨?_, hinv.1, hinv.2, ?_, ?_⟩
  · have h := run_calls_global GLOBAL_DAILY_LIMIT PER_USER_DAILY_LIMIT d uids
      ⟨0, [], d⟩ rfl
    simpa using h
  · intro gc m u
    exact check_global_change _ _ d ⟨gc, m, d⟩ u rfl
  · intro gc m u v
    exact check_user_change _ _ d ⟨gc, m, d⟩ u v rfl

/-- C3: a tracker state holding yesterday's date and non-zero global and
per-user counters behaves, on the first `check_and_increment` or
`get_stats` observed on the new day, exactly like a state whose global
counter is zero, whose per-user map is empty and whose date is the new day:
the reset happens before that call's own limit evaluation, and the call
records the new date. -/
theorem c3_day_rollover (g p d gc c0 : Nat) (u0 uid : String) (m : List (String × Nat)) :
    check_and_increment g p (d + 1) ⟨gc + 1, (u0, c0 + 1) :: m, d⟩ uid
        = check_and_increment g p (d + 1) ⟨0, [], d + 1⟩ uid
    ∧ (check_and_increment g p (d + 1) ⟨gc + 1, (u0, c0 + 1) :: m, d⟩ uid).2.current_date
        = d + 1
    ∧ get_stats (d + 1) ⟨gc + 1, (u0, c0 + 1) :: m, d⟩
        = get_stats (d + 1) ⟨0, [], d + 1⟩ := by
  have h1 : reset_if_new_day (d + 1)
      (⟨gc + 1, (u0, c0 + 1) :: m, d⟩ : DailyLimitTracker) = ⟨0, [], d + 1⟩ := by
    unfold reset_if_new_day
    simp
  have h2 : reset_if_new_day (d + 1) (⟨0, [], d + 1⟩ : DailyLimitTracker)
      = ⟨0, [], d + 1⟩ := reset_if_new_day_same _ _ rfl
  refine ⟨?_, check_and_increment_date _ _ _ _ _, ?_⟩
  · rw [check_and_increment_eq, check_and_increment_eq, h1, h2]
  · rw [get_stats_eq, get_stats_eq, h1, h2]

/-- C4: with a global ceiling of 2 and a per-user ceiling of 1, two
successive calls for the same user from fresh same-day state yield: first
call allowed, second call rejected with the per-user reason — which differs
from the global reason — even though global capacity remains. -/
theorem c4_per_user_before_global :
    (check_and_increment 2 1 0 ⟨0, [], 0⟩ "alice").1.1 = true
    ∧ (check_and_increment 2 1 0 (check_and_increment 2 1 0 ⟨0, [], 0⟩ "alice").2
          "alice").1 = (false, user_limit_msg 1)
    ∧ user_limit_msg 1 ≠ global_limit_msg 2
    ∧ (check_and_increment 2 1 0 ⟨0, [], 0⟩ "alice").2.global_count < 2 := by
  decide

/-- `ExtractedEventInfo` (models/schemas.py): one event extracted from a
screenshot.  `confidence` is embedded as a rational (the claims never
depend on float rounding). -/
structure ExtractedEventInfo where
  title : String
  date : String
  end_date : Option String := none
  start_time : Option String := none
  end_time : Option String := none
  location : Option String := none
  description : Option String := none
  timezone : Option String := some "Europe/Berlin"
  is_all_day : Bool := false
  is_deadline : Bool := false
  confidence : Rat := (1 : Rat) / 2
  attendee_name : Option String := none
  source_app : Option String := none
deriving DecidableEq

/-- `OpenAIAnalysisResult` (models/schemas.py). -/
structure OpenAIAnalysisResult where
  found_events : Bool
  event_count : Nat
  events : List ExtractedEventInfo
  raw_text : Option String
deriving DecidableEq

/-- A value of the custom data map a push notification carries: a string,
a number, or a list of full event records (the shape
`event.model_dump()` produces in apns_service.py lines 270-278). -/
inductive PValue where
  | str : String → PValue
  | num : Nat → PValue
  | events : List ExtractedEventInfo → PValue
deriving DecidableEq

/-- The arguments one of the three convenience senders of `APNsService`
passes to `send_notification`: device token, alert title, alert body and
the custom data map. -/
structure NotifArgs where
  device_token : String
  title : String
  body : String
  data : Option (List (String × PValue))
deriving DecidableEq

/-- `APNsService.send_no_events_notification` (apns_service.py
lines 287-294): the arguments it passes to `send_notification`. -/
def send_no_events_notification (device_token : String) : NotifArgs :=
  ⟨device_token, "No Events Found", "Couldn\x27t detect events in the screenshot",
   some [("action", PValue.str "no_events")]⟩

/-- `APNsService.send_error_notification` (apns_service.py lines 296-306):
the arguments it passes to `send_notification`; the body is the error text
truncated to 100 characters. -/
def send_error_notification (device_token error_message : String) : NotifArgs :=
  ⟨device_token, "Capture Failed",
   if error_message.length > 100 then error_message.take 100 ++ "..." else error_message,
   some [("action", PValue.str "error"), ("error", PValue.str error_message)]⟩

/-- `APNsService.send_event_created_notification` (apns_service.py
lines 242-285): returns `none` for an empty event list (the function
returns `False` without sending), otherwise the arguments it passes to
`send_notification`.  `events_data` is the list of full `model_dump`
records of the events. -/
def send_event_created_notification (device_token : String)
    (events : List ExtractedEventInfo) : Option NotifArgs :=
  match events with
  | [] => none
  | e :: rest =>
    if rest = [] then
      some ⟨device_token, "Event Created", e.title,
        some [("action", PValue.str "create_events"), ("events", PValue.events (e :: rest))]⟩
    else
      some ⟨device_token, toString (e :: rest).length ++ " Events Created",
        e.title ++ " and " ++ toString rest.length ++ " more",
        some [("action", PValue.str "create_events"), ("events", PValue.events (e :: rest))]⟩

/-- One entry of `pending_jobs` (main.py line 112).  The three write sites
store Python dicts with different key sets, so every key that is absent in
some write site is an `Option` field; `status` and `user_id` are present in
all of them. -/
structure JobRecord where
  user_id : String
  status : String
  created_at : Option String := none
  events : Option (List ExtractedEventInfo) := none
  message : Option String := none
  error : Option String := none
deriving DecidableEq

/-- The initial job insertion of `analyze_screenshot_async` (main.py
lines 458-463): `{"user_id": ..., "status": "processing", "created_at": ...}`. -/
def create_job (pending_jobs : List (String × JobRecord))
    (job_id user_id created_at : String) : List (String × JobRecord) :=
  assocSet pending_jobs job_id ⟨user_id, "processing", some created_at, none, none, none⟩

/-- `process_screenshot_and_notify` (main.py lines 340-406), the background
task.  The analyzer call is modelled by its outcome: `.ok r` when
`openai_service.analyze_screenshot` returns `r`, `.error e` when the body
of the `try` block raises an exception with text `e` (the `except` branch).
Returns the updated `pending_jobs` store and the list of push notifications
whose send was attempted.  The push guards at main.py lines 371, 389 and
405 are `if device_token:` — Python truthiness — so a missing entry *and*
a registered empty-string token both mean no push is attempted. -/
def process_screenshot_and_notify (job_id user_id : String)
    (device_tokens : List (String × String))
    (analyzer : Except String OpenAIAnalysisResult)
    (pending_jobs : List (String × JobRecord)) :
    List (String × JobRecord) × List NotifArgs :=
  match analyzer with
  | .error e =>
    (assocSet pending_jobs job_id ⟨user_id, "failed", none, none, none, some e⟩,
     match assocGet device_tokens user_id with
     | some t => if t = "" then [] else [send_error_notification t e]
     | none => [])
  | .ok r =>
    if r.found_events = false ∨ r.events.length = 0 then
      (assocSet pending_jobs job_id
        ⟨user_id, "completed", none, some [], some "No events found", none⟩,
       match assocGet device_tokens user_id with
       | some t => if t = "" then [] else [send_no_events_notification t]
       | none => [])
    else
      (assocSet pending_jobs job_id
        ⟨user_id, "completed", none, some r.events,
         some ("Found " ++ toString r.events.length ++ " event(s)"), none⟩,
       match assocGet device_tokens user_id with
       | some t => if t = "" then [] else (send_event_created_notification t r.events).toList
       | none => [])

/-- `JobStatusResponse` (models/schemas.py). -/
structure JobStatusResponse where
  job_id : String
  status : String
  events_to_create : Option (List ExtractedEventInfo)
  error : Option String
deriving DecidableEq

/-- `get_job_status` (main.py lines 500-523): `none` models the
404 "Job not found or expired" response, `some` the
`JobStatusResponse` built from the stored job dict. -/
def get_job_status (pending_jobs : List (String × JobRecord))
    (job_id : String) : Option JobStatusResponse :=
  match assocGet pending_jobs job_id with
  | none => none
  | some job => some ⟨job_id, job.status, job.events, job.error⟩

/-- One entry of the `"events"` array of the JSON object OpenAI returns,
as read by `_parse_response` (openai_service.py lines 257-300): every key
is optional (`dict.get`); `none` models an absent key. -/
structure RawEventData where
  title : Option String := none
  date : Option String := none
  start_time : Option String := none
  end_time : Option String := none
  location : Option String := none
  description : Option String := none
  timezone : Option String := none
  is_all_day : Option Bool := none
  is_deadline : Option Bool := none
  confidence : Option Rat := none
  attendee_name : Option String := none
  source_app : Option String := none
deriving DecidableEq

/-- The JSON object produced by `json.loads` on the OpenAI response, as
read by `_parse_response`. -/
structure RawAnalysisJson where
  found_events : Option Bool := none
  events : Option (List RawEventData) := none
  raw_text : Option String := none
deriving DecidableEq

/-- Python string falsiness of an optional value: `None` or `""`. -/
def falsyStr : Option String → Bool
  | none => true
  | some s => s = ""

/-- The loop body of `_parse_response` (openai_service.py lines 266-300)
for one event dict: `none` when the event is skipped (missing date, or the
`ExtractedEventInfo` construction raises — the only pydantic constraint is
`0 ≤ confidence ≤ 1`). -/
def parse_one_event (d : RawEventData) : Option ExtractedEventInfo :=
  if falsyStr d.date then none
  else
    match d.date with
    | none => none
    | some dt =>
      if 0 ≤ d.confidence.getD ((1 : Rat) / 2)
          ∧ d.confidence.getD ((1 : Rat) / 2) ≤ 1 then
        some
          { title := match d.title with
              | none => "Event"
              | some t => if t = "" then "Event" else t
            date := dt
            start_time := d.start_time
            end_time := d.end_time
            location := d.location
            description := d.description
            timezone := some (d.timezone.getD "Europe/Berlin")
            is_all_day :=
              if falsyStr d.start_time ∧ d.is_all_day.getD false = false then true
              else d.is_all_day.getD false
            is_deadline := d.is_deadline.getD false
            confidence := d.confidence.getD ((1 : Rat) / 2)
            attendee_name := d.attendee_name
            source_app := d.source_app }
      else none

/-- `OpenAIService._parse_response` (openai_service.py lines 257-307):
events are parsed only when `found_events` is truthy and the events array
is non-empty; the returned `found_events` and `event_count` are recomputed
from the events that actually parsed. -/
def parse_response (result : RawAnalysisJson) : OpenAIAnalysisResult :=
  let events_data := result.events.getD []
  let parsed_events :=
    if result.found_events.getD false = true ∧ events_data ≠ [] then
      events_data.filterMap parse_one_event
    else []
  ⟨decide (0 < parsed_events.length), parsed_events.length, parsed_events, result.raw_text⟩

/-- `OpenAIService.analyze_screenshot` (openai_service.py lines 25-86).
The `try` block up to `json.loads` is modelled by the `Except` input:
`.ok j` when the API call succeeds and its content parses to the JSON
object `j`, `.error e` when any exception is raised there with
`str(exception) = e`.  The `except` branch converts every exception into
an empty result — the function itself is total and never propagates. -/
def analyze_screenshot (api_outcome : Except String RawAnalysisJson) :
    OpenAIAnalysisResult :=
  match api_outcome with
  | .ok j => parse_response j
  | .error e => ⟨false, 0, [], some ("Analysis failed: " ++ e)⟩

/-- The lazily initialised APNs client configuration (apns_service.py
lines 146-154): present only when key material, key id, team id and bundle
id are all available.  `client = none` models
`APNsService._client is None` ("not configured"). -/
structure APNsClientConfig where
  key : String
  key_id : String
  team_id : String
  topic : String
  use_sandbox : Bool
deriving DecidableEq

/-- The alert part of the APNs payload. -/
structure ApsAlert where
  title : String
  body : String
deriving DecidableEq

/-- The notification payload built by `send_notification`
(apns_service.py lines 206-221): the `aps` dictionary plus the custom data
map merged at top level by `payload.update(data)`. -/
structure Payload where
  alert : ApsAlert
  sound : String
  content_available : Nat
  mutable_content : Nat
  custom : List (String × PValue)
deriving DecidableEq

/-- The payload construction of `send_notification` (apns_service.py
lines 206-221). -/
def build_payload (title body : String) (data : Option (List (String × PValue))) : Payload :=
  ⟨⟨title, body⟩, "default", 1, 1, data.getD []⟩

/-- The `NotificationRequest` handed to the aioapns client
(apns_service.py lines 223-227). -/
structure NotificationRequest where
  device_token : String
  message : Payload
deriving DecidableEq

/-- Outcome of the provider call `self.client.send_notification(request)`
(apns_service.py line 229): either a response with its `is_successful`
flag and description, or a raised exception with text `e`. -/
inductive ProviderOutcome where
  | response : Bool → String → ProviderOutcome
  | raises : String → ProviderOutcome
deriving DecidableEq

/-- `APNsService.send_notification` (apns_service.py lines 182-240).
Returns the boolean result together with the list of network requests
issued to the provider.  The `try`/`except` of the source is embedded by
total case analysis on `ProviderOutcome`: a raised exception is caught and
becomes `false` (the request had already been issued).  When no client is
configured the function returns `False` immediately and no request is
issued. -/
def send_notification (client : Option APNsClientConfig)
    (outcome : ProviderOutcome)
    (device_token title body : String)
    (data : Option (List (String × PValue))) : Bool × List NotificationRequest :=
  match client with
  | none => (false, [])
  | some _ =>
    match outcome with
    | .response ok _ => (ok, [⟨device_token, build_payload title body data⟩])
    | .raises _ => (false, [⟨device_token, build_payload title body data⟩])

/-- Modelled from the spec: "Validate device token shape (fixed-length hex
identifier)" — an APNs device token is 64 hexadecimal characters.  The
source contains no such validation; this definition exists only to state
what a malformed token is. -/
def spec_valid_device_token (t : String) : Bool :=
  t.length = 64 && t.toList.all (fun c => c.isDigit || "abcdefABCDEF".toList.contains c)

/-- A concrete extracted event used in counterexamples and witnesses. -/
def ev0 : ExtractedEventInfo :=
  { title := "Coffee with Sarah", date := "2026-03-01" }

/-- C2: a status read between job creation and the background task's
completion returns status processing; after the background task completes
with events, a status read returns status completed with exactly those
events; after it fails with an error text, a status read returns status
failed with exactly that error text; and a status read on an id that was
never created returns not-found (`none`, distinct from any job status). -/
theorem c2_job_lifecycle (jobs : List (String × JobRecord))
    (job_id user_id ts : String) (tokens : List (String × String))
    (n : Nat) (e : ExtractedEventInfo) (evs : List ExtractedEventInfo)
    (rt : Option String) (err id : String) :
    get_job_status (create_job jobs job_id user_id ts) job_id
        = some ⟨job_id, "processing", none, none⟩
    ∧ get_job_status
          (process_screenshot_and_notify job_id user_id tokens
            (.ok ⟨true, n, e :: evs, rt⟩) (create_job jobs job_id user_id ts)).1 job_id
        = some ⟨job_id, "completed", some (e :: evs), none⟩
    ∧ get_job_status
          (process_screenshot_and_notify job_id user_id tokens (.error err)
            (create_job jobs job_id user_id ts)).1 job_id
        = some ⟨job_id, "failed", none, some err⟩
    ∧ (assocGet jobs id = none → get_job_status jobs id = none) := by
  refine ⟨?_, ?_, ?_, fun h => ?_⟩
  · simp [get_job_status, create_job, assocGet_assocSet_self]
  · simp [get_job_status, process_screenshot_and_notify, assocGet_assocSet_self]
  · simp [get_job_status, process_screenshot_and_notify, assocGet_assocSet_self]
  · simp [get_job_status, h]

theorem c2_job_lifecycle_witness :
    get_job_status (create_job [] "job-1" "user-1" "2026-01-01 08:00:00 UTC") "job-1"
        = some ⟨"job-1", "processing", none, none⟩
    ∧ get_job_status [] "missing-job" = none := by
  have h := c2_job_lifecycle [] "job-1" "user-1" "2026-01-01 08:00:00 UTC" []
    1 ev0 [] none "boom" "missing-job"
  exact ⟨h.1, h.2.2.2 rfl⟩

/-- C5 counterexample: for the concrete one-event list `[ev0]`, the
"event found" notification's custom data map carries the full event body
under the `"events"` key (and no job-id entry at all — the function does
not even receive a job id), so the payload does include the full event
bodies. -/
theorem c5_counterexample :
    send_event_created_notification "token-1" [ev0]
        = some ⟨"token-1", "Event Created", "Coffee with Sarah",
            some [("action", PValue.str "create_events"),
                  ("events", PValue.events [ev0])]⟩
    ∧ ("events", PValue.events [ev0]) ∈
        [("action", PValue.str "create_events"), ("events", PValue.events [ev0])] := by
  exact ⟨rfl, List.Mem.tail _ (List.Mem.head _)⟩

/-- C5 (amended): for every non-empty list of extracted events, the
"event found" notification's custom data payload consists of the action
tag together with the full list of event bodies under the `"events"` key;
no job-id correlator is included. -/
theorem c5_event_payload_contains_full_events (device_token : String)
    (e : ExtractedEventInfo) (rest : List ExtractedEventInfo) :
    (send_event_created_notification device_token (e :: rest)).map NotifArgs.data
      = some (some [("action", PValue.str "create_events"),
                    ("events", PValue.events (e :: rest))]) := by
  unfold send_event_created_notification
  by_cases h : rest = [] <;> simp [h]

/-- C6 counterexample: the user `"user-1"` has a registered device token —
the empty string, which `register_device` (main.py line 331) stores without
validation — and the analyzer raises; the job is marked failed with the
exception text, but the push guard `if device_token:` (main.py line 405)
is a truthiness test, so no error push is attempted, refuting "a push is
attempted if the user has a registered device token". -/
theorem c6_counterexample :
    assocGet [("user-1", "")] "user-1" = some ""
    ∧ (process_screenshot_and_notify "job-1" "user-1" [("user-1", "")]
        (.error "boom") []).2 = []
    ∧ (process_screenshot_and_notify "job-1" "user-1" [("user-1", "")]
        (.error "boom") []).1
      = [("job-1", ⟨"user-1", "failed", none, none, none, some "boom"⟩)] := by
  exact ⟨rfl, rfl, rfl⟩

/-- C6 (amended): when the background task's analyzer call raises an
exception with text `e`, the task stores the job as status failed with
exactly that text, and attempts an error-titled push (title
"Capture Failed") if and only if the user has a registered *non-empty*
device token — the guard is Python's `if device_token:` truthiness test,
so a missing registration and a registered empty-string token alike yield
no push attempt; the embedding is a total function, so the task never
crashes. -/
theorem c6_analyzer_exception_marks_failed (job_id user_id e : String)
    (tokens : List (String × String)) (jobs : List (String × JobRecord)) :
    (process_screenshot_and_notify job_id user_id tokens (.error e) jobs).1
        = assocSet jobs job_id ⟨user_id, "failed", none, none, none, some e⟩
    ∧ (∀ t : String, assocGet tokens user_id = some t → t ≠ "" →
        (process_screenshot_and_notify job_id user_id tokens (.error e) jobs).2
          = [send_error_notification t e])
    ∧ (assocGet tokens user_id = none →
        (process_screenshot_and_notify job_id user_id tokens (.error e) jobs).2 = [])
    ∧ (assocGet tokens user_id = some "" →
        (process_screenshot_and_notify job_id user_id tokens (.error e) jobs).2 = [])
    ∧ (∀ t : String, (send_error_notification t e).title = "Capture Failed") := by
  refine ⟨rfl, fun t ht hne => ?_, fun ht => ?_, fun ht => ?_, fun t => rfl⟩
  · simp [process_screenshot_and_notify, ht, hne]
  · simp [process_screenshot_and_notify, ht]
  · simp [process_screenshot_and_notify, ht]

theorem c6_analyzer_exception_marks_failed_witness :
    (process_screenshot_and_notify "job-1" "user-1" [("user-1", "token-1")]
        (.error "boom") []).2 = [send_error_notification "token-1" "boom"]
    ∧ (process_screenshot_and_notify "job-1" "user-1" [] (.error "boom") []).2 = []
    ∧ (process_screenshot_and_notify "job-1" "user-1" [("user-1", "")]
        (.error "boom") []).2 = [] := by
  exact ⟨(c6_analyzer_exception_marks_failed "job-1" "user-1" "boom"
            [("user-1", "token-1")] []).2.1 "token-1" (by decide) (by decide),
         (c6_analyzer_exception_marks_failed "job-1" "user-1" "boom" [] []).2.2.1 rfl,
         (c6_analyzer_exception_marks_failed "job-1" "user-1" "boom"
            [("user-1", "")] []).2.2.2.1 (by decide)⟩

/-- C7: `send_notification` always returns a boolean — every provider
outcome, including a raised exception, is caught and mapped to a result —
and when no client is configured it returns failure immediately with no
network request issued. -/
theorem c7_send_notification_never_throws (outcome : ProviderOutcome)
    (device_token title body : String) (data : Option (List (String × PValue))) :
    send_notification none outcome device_token title body data = (false, [])
    ∧ ∀ c : APNsClientConfig, ∃ b : Bool,
        send_notification (some c) outcome device_token title body data
          = (b, [⟨device_token, build_payload title body data⟩]) := by
  refine ⟨rfl, fun c => ?_⟩
  cases outcome with
  | response ok desc => exact ⟨ok, rfl⟩
  | raises m => exact ⟨false, rfl⟩

/-- C8 counterexample: `"zz"` is not a fixed-length hex device token, yet
with a configured client `send_notification` issues a network request
carrying it and even reports success — no shape validation happens and no
pre-network rejection occurs. -/
theorem c8_counterexample :
    spec_valid_device_token "zz" = false
    ∧ send_notification
          (some ⟨"key", "KEYID", "TEAMID", "com.example.capture", true⟩)
          (.response true "Ok") "zz" "T" "B" none
        = (true, [⟨"zz", build_payload "T" "B" none⟩]) := by
  exact ⟨by decide, rfl⟩

/-- C8 (amended): `send_notification` performs no device-token shape
validation; its first check is only whether the client is configured.
With a configured client every device token — malformed or not — results
in exactly one network request carrying that token, and the
reject-without-network path is taken only when the client is absent. -/
theorem c8_no_token_shape_validation (c : APNsClientConfig)
    (outcome : ProviderOutcome) (device_token title body : String)
    (data : Option (List (String × PValue))) :
    (send_notification (some c) outcome device_token title body data).2
        = [⟨device_token, build_payload title body data⟩]
    ∧ send_notification none outcome device_token title body data = (false, []) := by
  cases outcome <;> exact ⟨rfl, rfl⟩

/-- C9 counterexample: a job created with a `created_at` timestamp loses
that field when the background task marks it completed — the completion
write replaces the whole record, so `created_at` is not preserved. -/
theorem c9_counterexample :
    (assocGet (create_job [] "job-1" "user-1" "2026-01-01 08:00:00 UTC") "job-1").map
        JobRecord.created_at = some (some "2026-01-01 08:00:00 UTC")
    ∧ (assocGet
          (process_screenshot_and_notify "job-1" "user-1" []
            (.ok ⟨true, 1, [ev0], none⟩)
            (create_job [] "job-1" "user-1" "2026-01-01 08:00:00 UTC")).1 "job-1").map
        JobRecord.created_at = some none := by
  exact ⟨by decide, by decide⟩

/-- C9 (amended): marking a job completed (or failed) replaces the whole
job record: the status becomes completed with the result events attached
(or failed with the error), `user_id` is rewritten with the same value and
remains readable, but the `created_at` field present at creation is
dropped by the replacement. -/
theorem c9_completion_replaces_record (jobs : List (String × JobRecord))
    (job_id user_id ts : String) (tokens : List (String × String))
    (n : Nat) (e : ExtractedEventInfo) (evs : List ExtractedEventInfo)
    (rt : Option String) (err : String) :
    assocGet (create_job jobs job_id user_id ts) job_id
        = some ⟨user_id, "processing", some ts, none, none, none⟩
    ∧ assocGet (process_screenshot_and_notify job_id user_id tokens
          (.ok ⟨true, n, e :: evs, rt⟩) (create_job jobs job_id user_id ts)).1 job_id
        = some ⟨user_id, "completed", none, some (e :: evs),
            some ("Found " ++ toString (e :: evs).length ++ " event(s)"), none⟩
    ∧ assocGet (process_screenshot_and_notify job_id user_id tokens (.error err)
          (create_job jobs job_id user_id ts)).1 job_id
        = some ⟨user_id, "failed", none, none, none, some err⟩ := by
  refine ⟨assocGet_assocSet_self _ _ _, ?_, ?_⟩
  · simp [process_screenshot_and_notify, assocGet_assocSet_self]
  · simp [process_screenshot_and_notify, assocGet_assocSet_self]

/-- C10: `analyze_screenshot` never propagates an exception — its
embedding is a total function over the outcome of the wrapped API call —
and any internal failure (API error or JSON parse error, both `.error`
outcomes) is converted into a result with `found_events = false`, an empty
event list and a `raw_text` beginning "Analysis failed: "; feeding that
result to the async pipeline records the job as completed with zero events
(the no-events path), not as failed. -/
theorem c10_analyzer_failures_become_no_events (e job_id user_id : String)
    (tokens : List (String × String)) (jobs : List (String × JobRecord)) :
    analyze_screenshot (.error e)
        = ⟨false, 0, [], some ("Analysis failed: " ++ e)⟩
    ∧ (∃ rest : String, (analyze_screenshot (.error e)).raw_text
          = some ("Analysis failed: " ++ rest))
    ∧ (process_screenshot_and_notify job_id user_id tokens
          (.ok (analyze_screenshot (.error e))) jobs).1
        = assocSet jobs job_id
            ⟨user_id, "completed", none, some [], some "No events found", none⟩
    ∧ "completed" ≠ "failed" := by
  refine ⟨rfl, ⟨e, rfl⟩, ?_, by decide⟩
  simp [process_screenshot_and_notify, analyze_screenshot]

end Capture
